import Mathlib

/-!
Formal model of the BacteriaHunter simulation core
(src/components/games/BacteriaHunter.tsx).

Embedding conventions:
- JavaScript numbers are modelled as exact rationals in the discrete
  simulation state (collision pass, scoring, level generation, spawning),
  and as real numbers in the steering controller, where vector
  normalization introduces square roots.
- The source tests a.distanceTo(b) < r with nonnegative r; this is
  embedded as the equivalent squared-distance test distSq a b < r * r,
  which keeps the collision pass decidable over the rationals.
- Math.random() draws are modelled as explicit parameters, with the
  range hypothesis 0 <= r < 1 stated where a claim needs it.
- Date.now() timestamps are in milliseconds, as in the source; deltaTime
  is in seconds (time-units).
- React state semantics: the game loop closures (shoot, updateBacteria,
  updateProjectiles) are created inside useEffect(..., []), which runs
  once after the first render.  Those closures therefore read the first
  render values of the state variables score (0), totalBacteria (0) and
  gameComplete (false) for the whole lifetime of the scene, while
  functional updaters such as setBacteriaKilled(prev => ...) read the
  current value.  The EffectClosure record holds the captured values;
  mountClosure is what the mounted component actually captures.
  setState calls are modelled as in-place updates of the ScoreState
  record, and the callbacks onScoreUpdate / onComplete are modelled as
  append-only logs of the values they were invoked with.
- Purely visual work (mesh construction, rotation of meshes, red blood
  cells, the educational fact popup) is outside the model.
-/

namespace BacteriaHunter

/-- Three-component vector, as THREE.Vector3. -/
structure Vec3 (α : Type) where
  x : α
  y : α
  z : α
deriving DecidableEq

/-- The zero vector, as produced by new THREE.Vector3(). -/
def vzero {α : Type} [Zero α] : Vec3 α := ⟨0, 0, 0⟩

/-- Componentwise sum, as THREE.Vector3.add. -/
def vadd {α : Type} [Add α] (a b : Vec3 α) : Vec3 α :=
  ⟨a.x + b.x, a.y + b.y, a.z + b.z⟩

/-- Componentwise difference, as THREE.Vector3.sub. -/
def vsub {α : Type} [Sub α] (a b : Vec3 α) : Vec3 α :=
  ⟨a.x - b.x, a.y - b.y, a.z - b.z⟩

/-- Scalar multiple, as THREE.Vector3.multiplyScalar. -/
def vsmul {α : Type} [Mul α] (c : α) (v : Vec3 α) : Vec3 α :=
  ⟨c * v.x, c * v.y, c * v.z⟩

/-- Dot product. -/
def dot {α : Type} [Add α] [Mul α] (a b : Vec3 α) : α :=
  a.x * b.x + a.y * b.y + a.z * b.z

/-- Squared length of a vector. -/
def normSq {α : Type} [Add α] [Mul α] (v : Vec3 α) : α := dot v v

/-- Squared distance between two points.  THREE.Vector3.distanceTo is the
square root of this quantity, so distanceTo a b < r with 0 <= r holds
exactly when distSq a b < r * r. -/
def distSq {α : Type} [Add α] [Mul α] [Sub α] (a b : Vec3 α) : α :=
  normSq (vsub a b)

/-- THREE.Vector3.lerp: v.lerp(t, alpha) adds (t - v) * alpha componentwise. -/
def vlerp {α : Type} [Add α] [Sub α] [Mul α] (v t : Vec3 α) (alpha : α) : Vec3 α :=
  vadd v (vsmul alpha (vsub t v))

/-- Behavior tag of a bacteria type.  The source literal is
behavior: "wander" | "chase"; the spec calls the chase tag "pursue". -/
inductive Behavior where
  | wander
  | chase
deriving DecidableEq

/-- Gameplay fields of an entry of BACTERIA_TYPES (name, color and the
flavor text are visual only and omitted). -/
structure BacteriaType (α : Type) where
  speed : α
  health : ℤ
  points : ℤ
  behavior : Behavior
  scale : α
deriving DecidableEq

/-- BACTERIA_TYPES.ecoli: speed 2, health 1, points 10, wander, scale 0.4. -/
def ecoliType {α : Type} [DivisionRing α] : BacteriaType α :=
  ⟨2, 1, 10, Behavior.wander, 2 / 5⟩

/-- BACTERIA_TYPES.streptococcus: speed 3, health 2, points 25, chase, scale 0.35. -/
def streptococcusType {α : Type} [DivisionRing α] : BacteriaType α :=
  ⟨3, 2, 25, Behavior.chase, 7 / 20⟩

/-- Object.keys(BACTERIA_TYPES) enumerates ecoli then streptococcus. -/
def bacteriaTypes {α : Type} [DivisionRing α] : List (BacteriaType α) :=
  [ecoliType, streptococcusType]

/-- A live bacteria record: mesh position, type reference, current health,
velocity, optional wander target and wander countdown. -/
structure Bacteria (α : Type) where
  pos : Vec3 α
  btype : BacteriaType α
  health : ℤ
  vel : Vec3 α
  targetPosition : Option (Vec3 α)
  wanderTimer : α
deriving DecidableEq

/-- A projectile record: mesh position, direction, speed and creation
timestamp (milliseconds, from Date.now()). -/
structure Projectile (α : Type) where
  pos : Vec3 α
  dir : Vec3 α
  speed : α
  createdAt : α
deriving DecidableEq

/-- The shoot function (non-visual part): pushes a projectile at the camera
position, with the camera look direction, speed 25 and createdAt = now.
The direction is (0, 0, -1) rotated by the camera quaternion; see
applyQuaternion below for that computation. -/
def shoot {α : Type} [DivisionRing α] (camPos lookDir : Vec3 α) (now : α) : Projectile α :=
  ⟨camPos, lookDir, 25, now⟩

/-! ## The collision pass (updateProjectiles, lines 549-638), over ℚ -/

/-- Moving a projectile at the top of the pass:
position += direction * (speed * deltaTime). -/
def moveProjectile (dt : ℚ) (p : Projectile ℚ) : Projectile ℚ :=
  { p with pos := vadd p.pos (vsmul (p.speed * dt) p.dir) }

/-- The effect of one projectile on one bacteria in the inner collision
loop: a live bacteria (health > 0) strictly within 0.6 units of the
projectile loses one health; every other bacteria is untouched.
The squared radius is 0.6 * 0.6 = 9/25. -/
def damageRule (ppos : Vec3 ℚ) (b : Bacteria ℚ) : Bacteria ℚ :=
  if 0 < b.health ∧ distSq ppos b.pos < 9 / 25 then
    { b with health := b.health - 1 }
  else b

/-- The inner forEach over bacteriaRef.current (lines 568-581) for one
projectile at position ppos, starting at absolute bacteria index i.
Returns the updated bacteria list, the number of times this projectile
pushed its own index onto projectilesToRemove (one push per hit; the
loop does not break after a hit), and the list of absolute indices
pushed onto bacteriaToRemove (bacteria whose health reached <= 0 here). -/
def scanBacteria (ppos : Vec3 ℚ) : List (Bacteria ℚ) → ℕ →
    List (Bacteria ℚ) × ℕ × List ℕ
  | [], _ => ([], 0, [])
  | b :: rest, i =>
    if b.health ≤ 0 then
      let r := scanBacteria ppos rest (i + 1)
      (b :: r.1, r.2.1, r.2.2)
    else if distSq ppos b.pos < 9 / 25 then
      let b' : Bacteria ℚ := { b with health := b.health - 1 }
      let r := scanBacteria ppos rest (i + 1)
      (b' :: r.1, r.2.1 + 1, if b'.health ≤ 0 then i :: r.2.2 else r.2.2)
    else
      let r := scanBacteria ppos rest (i + 1)
      (b :: r.1, r.2.1, r.2.2)

/-- Result of the outer forEach over projectilesRef.current: projectiles
after movement (removal happens later), bacteria after all inner scans,
and the accumulated projectilesToRemove / bacteriaToRemove index lists. -/
structure PassData where
  projectiles : List (Projectile ℚ)
  bacteria : List (Bacteria ℚ)
  projRemove : List ℕ
  bactRemove : List ℕ
deriving DecidableEq

/-- The outer forEach (lines 555-582), starting at projectile index i.
Each projectile first moves; if its age now - createdAt exceeds 3000
milliseconds it is pushed onto projectilesToRemove and the collision
test is skipped (early return); otherwise it is scanned against the
current bacteria list, whose in-place health mutations are visible to
the remaining projectiles of the same pass. -/
def projLoop (now dt : ℚ) : List (Projectile ℚ) → ℕ → List (Bacteria ℚ) → PassData
  | [], _, bs => ⟨[], bs, [], []⟩
  | p :: ps, i, bs =>
    let p' := moveProjectile dt p
    if 3000 < now - p.createdAt then
      let r := projLoop now dt ps (i + 1) bs
      ⟨p' :: r.projectiles, r.bacteria, i :: r.projRemove, r.bactRemove⟩
    else
      let s := scanBacteria p'.pos bs 0
      let r := projLoop now dt ps (i + 1) s.1
      ⟨p' :: r.projectiles, r.bacteria,
        List.replicate s.2.1 i ++ r.projRemove, s.2.2 ++ r.bactRemove⟩

/-- Insertion of an index into a descending-sorted list. -/
def insertDesc (n : ℕ) : List ℕ → List ℕ
  | [] => [n]
  | m :: ms => if m ≤ n then n :: m :: ms else m :: insertDesc n ms

/-- Descending insertion sort, modelling .sort((a, b) => b - a). -/
def sortDesc (l : List ℕ) : List ℕ := l.foldr insertDesc []

/-- Duplicate removal, modelling Array.from(new Set(l)).  The element
order it produces is irrelevant because a sort follows. -/
def dedupIdx : List ℕ → List ℕ
  | [] => []
  | n :: ns => let r := dedupIdx ns; if n ∈ r then r else n :: r

/-- Array.from(new Set(l)).sort((a, b) => b - a): duplicate removal
followed by a descending sort. -/
def uniqueDesc (l : List ℕ) : List ℕ := sortDesc (dedupIdx l)

/-- Sequential splice(index, 1) over a descending index list. -/
def spliceIdxsDesc {β : Type} (l : List β) (idxs : List ℕ) : List β :=
  idxs.foldl (fun acc i => acc.eraseIdx i) l

/-! ## Scoring and completion (lines 596-637 and the sync effect 718-728) -/

/-- React state of the component that the scoring code touches, together
with logs of the values passed to the two callbacks.  score, killed,
total and complete are the current values of the score, bacteriaKilled,
totalBacteria and gameComplete state variables. -/
structure ScoreState where
  score : ℤ
  killed : ℕ
  total : ℕ
  complete : Bool
  scoreUpdates : List ℤ
  completeCalls : List ℤ
deriving DecidableEq

/-- The values of score, totalBacteria and gameComplete captured by the
useEffect(..., []) closure at the first render; every read of these
variables inside the animation-loop functions sees these captured
values, not the current state. -/
structure EffectClosure where
  score0 : ℤ
  total0 : ℕ
  complete0 : Bool
deriving DecidableEq

/-- The closure the mounted component actually captures: the initial
state values score = 0, totalBacteria = 0, gameComplete = false. -/
def mountClosure : EffectClosure := ⟨0, 0, false⟩

/-- Math.ceil(total * 0.8) for a natural total.  For every realistic
total the double-precision product rounds so that the ceiling equals
the exact one, which over ℕ is (4 * total + 4) / 5. -/
def completionThreshold (total : ℕ) : ℕ := (4 * total + 4) / 5

/-- Processing of one killed bacteria worth the given points
(lines 601-621): newScore = captured score + points; setScore and
onScoreUpdate with newScore; then the functional updater of
bacteriaKilled computes newCount = killed + 1 and, when newCount
reaches Math.ceil(captured totalBacteria * 0.8) and the captured
gameComplete is false, sets gameComplete, adds the +50 bonus and
invokes onComplete with min(100, newScore + 50). -/
def killStep (cl : EffectClosure) (st : ScoreState) (points : ℤ) : ScoreState :=
  let newScore := cl.score0 + points
  let st1 := { st with score := newScore, scoreUpdates := st.scoreUpdates ++ [newScore] }
  let newCount := st1.killed + 1
  let st2 :=
    if completionThreshold cl.total0 ≤ newCount ∧ cl.complete0 = false then
      { st1 with complete := true, score := newScore + 50,
                 completeCalls := st1.completeCalls ++ [min 100 (newScore + 50)] }
    else st1
  { st2 with killed := newCount }

/-- The forEach over uniqueBacteria (descending killed indices,
lines 598-637): look the index up (the if (bacteria) guard), score the
kill, then splice the bacteria out. -/
def scoreKills (cl : EffectClosure) :
    List ℕ → List (Bacteria ℚ) → ScoreState → List (Bacteria ℚ) × ScoreState
  | [], bs, st => (bs, st)
  | i :: rest, bs, st =>
    match bs.get? i with
    | none => scoreKills cl rest bs st
    | some b => scoreKills cl rest (bs.eraseIdx i) (killStep cl st b.btype.points)

/-- The mutable world the animation loop threads through a tick. -/
structure World where
  projectiles : List (Projectile ℚ)
  bacteria : List (Bacteria ℚ)
  state : ScoreState
deriving DecidableEq

/-- The whole updateProjectiles(deltaTime) call at wall-clock time now:
run the movement/expiry/collision loop, splice out the marked
projectiles (descending unique indices), then score and splice out the
killed bacteria. -/
def updateProjectiles (cl : EffectClosure) (now dt : ℚ) (w : World) : World :=
  let d := projLoop now dt w.projectiles 0 w.bacteria
  let ps := spliceIdxsDesc d.projectiles (uniqueDesc d.projRemove)
  let r := scoreKills cl (uniqueDesc d.bactRemove) d.bacteria w.state
  ⟨ps, r.1, r.2⟩

/-- The sync useEffect (lines 718-728), which runs after a render with
fresh (non-captured) state values. -/
def syncEffect (st : ScoreState) : ScoreState :=
  if 0 < st.killed ∧ 0 < st.total then
    if completionThreshold st.total ≤ st.killed ∧ st.complete = false then
      { st with complete := true, score := st.score + 50,
                completeCalls := st.completeCalls ++ [min 100 (st.score + 50)] }
    else st
  else st

/-- One collision pass followed by the post-render sync effect. -/
def tick (cl : EffectClosure) (now dt : ℚ) (w : World) : World :=
  let w' := updateProjectiles cl now dt w
  { w' with state := syncEffect w'.state }

/-! ## Concrete fixtures for counterexamples and witnesses -/

/-- A projectile fired from position p straight along -z at time 0. -/
def projAt (p : Vec3 ℚ) : Projectile ℚ := ⟨p, ⟨0, 0, -1⟩, 25, 0⟩

/-- A bacteria of the given type at position p with the given current
health, fresh velocity, no wander target. -/
def bactAt (t : BacteriaType ℚ) (h : ℤ) (p : Vec3 ℚ) : Bacteria ℚ :=
  ⟨p, t, h, vzero, none, 0⟩

/-- Initial score state once setTotalBacteria has run at mount. -/
def initState (total : ℕ) : ScoreState := ⟨0, 0, total, false, [], []⟩

/-! ## Level generation (generateLevel, lines 220-251), over ℚ -/

/-- A room of the level: center position, extents and the bacteria flag.
Rooms are immutable after generation. -/
structure Room where
  position : Vec3 ℚ
  width : ℚ
  height : ℚ
  depth : ℚ
  hasBacteria : Bool
deriving DecidableEq

/-- The four hard-coded peripheral room offsets from the origin:
forward, right, left, far forward. -/
def roomDirections : List (Vec3 ℚ) :=
  [⟨0, 0, -20⟩, ⟨20, 0, 0⟩, ⟨-20, 0, 0⟩, ⟨0, 0, -40⟩]

/-- One peripheral room at offset dir, with random draws t = (w, h, d):
width 10 + w * 6, height 5 + h * 3, depth 10 + d * 6, populated. -/
def peripheralRoom (dir : Vec3 ℚ) (t : ℚ × ℚ × ℚ) : Room :=
  ⟨dir, 10 + t.1 * 6, 5 + t.2.1 * 3, 10 + t.2.2 * 6, true⟩

/-- generateLevel: the spawn room (origin, 12 x 6 x 12, no bacteria)
followed by the four peripheral rooms.  The Math.random() draws of room
i are passed in as r i; generation is total (it cannot fail). -/
def generateLevel (r : Fin 4 → ℚ × ℚ × ℚ) : List Room :=
  ⟨⟨0, 0, 0⟩, 12, 6, 12, false⟩ ::
  [peripheralRoom ⟨0, 0, -20⟩ (r 0), peripheralRoom ⟨20, 0, 0⟩ (r 1),
   peripheralRoom ⟨-20, 0, 0⟩ (r 2), peripheralRoom ⟨0, 0, -40⟩ (r 3)]

/-! ## Entity spawning (spawnBacteriaInRoom, lines 390-461), over ℚ -/

/-- The Math.random() draws used by one spawned bacteria: type choice,
the three position draws and the wander timer draw.  The draws that
only build meshes (chain length, flagella angles) are visual and
omitted. -/
structure SpawnRand where
  rType : ℚ
  rx : ℚ
  ry : ℚ
  rz : ℚ
  rTimer : ℚ
deriving DecidableEq

/-- One spawned bacteria: type = types[floor(rType * 2)] (two keys in
BACTERIA_TYPES); position = room center plus (rx - 0.5) * (width - 2)
in x and (rz - 0.5) * (depth - 2) in z, with y set to 1 + ry * 2;
health = type health, velocity = new Vector3() = 0, no target,
wanderTimer = rTimer * 2. -/
def spawnOne (room : Room) (rnd : SpawnRand) : Bacteria ℚ :=
  let btype := (bacteriaTypes : List (BacteriaType ℚ)).getD (Int.floor (rnd.rType * 2)).toNat ecoliType
  ⟨⟨room.position.x + (rnd.rx - 1/2) * (room.width - 2),
    1 + rnd.ry * 2,
    room.position.z + (rnd.rz - 1/2) * (room.depth - 2)⟩,
   btype, btype.health, vzero, none, rnd.rTimer * 2⟩

/-- spawnBacteriaInRoom: bacteriaCount = 3 + floor(rc * 3) entities are
created and pushed; the function returns bacteriaCount.  rs i supplies
the draws of the i-th entity. -/
def spawnBacteriaInRoom (room : Room) (rc : ℚ) (rs : ℕ → SpawnRand) :
    List (Bacteria ℚ) × ℕ :=
  let bacteriaCount := 3 + (Int.floor (rc * 3)).toNat
  ((List.range bacteriaCount).map (fun i => spawnOne room (rs i)), bacteriaCount)

/-- The accumulation in the mount effect (lines 139-146): forEach over
rooms with index; every room flagged hasBacteria spawns and its count
is added to the running total handed to setTotalBacteria. -/
def totalSpawned (rooms : List Room) (rcs : ℕ → ℚ) (rss : ℕ → ℕ → SpawnRand) : ℕ :=
  rooms.enum.foldl
    (fun acc p =>
      if p.2.hasBacteria then acc + (spawnBacteriaInRoom p.2 (rcs p.1) (rss p.1)).2
      else acc) 0

/-! ## The steering controller (updateBacteria, lines 487-546), over ℝ

Vector normalization takes a square root, so this part of the model
lives over the real numbers and its definitions are noncomputable;
concrete witnesses are evaluated through lemmas about Real.sqrt. -/

/-- THREE.Vector3.length. -/
noncomputable def vlength (v : Vec3 ℝ) : ℝ := Real.sqrt (normSq v)

/-- THREE.Vector3.normalize: divideScalar(length || 1), i.e. the vector
is divided by its length unless the length is 0, in which case it is
divided by 1 (so the zero vector normalizes to itself; there is no
explicit zero-length check at the call sites in the source). -/
noncomputable def vnormalize (v : Vec3 ℝ) : Vec3 ℝ :=
  vsmul (1 / (if vlength v = 0 then 1 else vlength v)) v

/-- THREE.Vector3.distanceTo. -/
noncomputable def vdist (a b : Vec3 ℝ) : ℝ := vlength (vsub a b)

/-- The Math.random() draws one steering step can consume: the three
target offset draws and the timer reset draw. -/
structure SteerRand where
  r1 : ℝ
  r2 : ℝ
  r3 : ℝ
  r4 : ℝ

/-- The wander target refresh (lines 499-508 and 520-529): when the
decremented countdown has elapsed or no target is set, pick position
plus a random offset (x and z in (-3, 3), y scaled by yRange, which is
2 in the wander branch and 0 in the chase fallback) and reset the
countdown to 2 + r4 * 2; otherwise keep the current target and
countdown. -/
noncomputable def wanderChoice (pos : Vec3 ℝ) (target : Option (Vec3 ℝ))
    (timer yRange r1 r2 r3 r4 : ℝ) : Vec3 ℝ × ℝ :=
  if timer ≤ 0 ∨ target = none then
    (vadd pos ⟨(r1 - 1/2) * 6, (r2 - 1/2) * yRange, (r3 - 1/2) * 6⟩, 2 + r4 * 2)
  else (target.getD vzero, timer)

/-- The vertical clamp at line 540: y is clamped to [0.5, 5]. -/
noncomputable def clampY (p : Vec3 ℝ) : Vec3 ℝ :=
  ⟨p.x, max (1/2) (min 5 p.y), p.z⟩

/-- Lines 537-540: position += velocity * deltaTime, then clamp y.  The
mesh rotation update (lines 543-544) is visual and omitted. -/
noncomputable def applyVelocity (dt : ℝ) (b : Bacteria ℝ) : Bacteria ℝ :=
  { b with pos := clampY (vadd b.pos (vsmul dt b.vel)) }

/-- One iteration of the forEach in updateBacteria for one entity:
dead entities (health <= 0) are skipped entirely; otherwise the wander
countdown is decremented and the behavior branch updates velocity by
exponential smoothing (lerp factor 0.02 toward the wander direction
times type speed; for chase, factor 0.05 toward the player direction
times type speed when the player is strictly closer than 15 units, and
otherwise the wander rule at half the type speed), after which the
position integrates the velocity. -/
noncomputable def steerStep (playerPos : Vec3 ℝ) (dt : ℝ) (rnd : SteerRand)
    (b : Bacteria ℝ) : Bacteria ℝ :=
  if b.health ≤ 0 then b
  else
    let t0 := b.wanderTimer - dt
    match b.btype.behavior with
    | Behavior.wander =>
      let c := wanderChoice b.pos b.targetPosition t0 2 rnd.r1 rnd.r2 rnd.r3 rnd.r4
      let dir := vnormalize (vsub c.1 b.pos)
      let v' := vlerp b.vel (vsmul b.btype.speed dir) (2/100)
      applyVelocity dt { b with targetPosition := some c.1, wanderTimer := c.2, vel := v' }
    | Behavior.chase =>
      if vdist b.pos playerPos < 15 then
        let dir := vnormalize (vsub playerPos b.pos)
        let v' := vlerp b.vel (vsmul b.btype.speed dir) (5/100)
        applyVelocity dt { b with wanderTimer := t0, vel := v' }
      else
        let c := wanderChoice b.pos b.targetPosition t0 0 rnd.r1 rnd.r2 rnd.r3 rnd.r4
        let dir := vnormalize (vsub c.1 b.pos)
        let v' := vlerp b.vel (vsmul (b.btype.speed * (1/2)) dir) (2/100)
        applyVelocity dt { b with targetPosition := some c.1, wanderTimer := c.2, vel := v' }

/-- A sequence of steering steps applied to one entity, each with its own
player position, frame delta and random draws. -/
noncomputable def steerRun (steps : List (Vec3 ℝ × ℝ × SteerRand)) (b : Bacteria ℝ) :
    Bacteria ℝ :=
  steps.foldl (fun acc s => steerStep s.1 s.2.1 s.2.2 acc) b

/-- A camera orientation quaternion (components as in THREE.Quaternion). -/
structure Quat where
  qx : ℝ
  qy : ℝ
  qz : ℝ
  qw : ℝ

/-- THREE.Vector3.applyQuaternion: v + 2 qw (q x v) + 2 q x (q x v),
computed as in the THREE source via t = 2 (q x v).  The shoot function
applies this to (0, 0, -1) to obtain the projectile direction. -/
noncomputable def applyQuaternion (q : Quat) (v : Vec3 ℝ) : Vec3 ℝ :=
  let tx := 2 * (q.qy * v.z - q.qz * v.y)
  let ty := 2 * (q.qz * v.x - q.qx * v.z)
  let tz := 2 * (q.qx * v.y - q.qy * v.x)
  ⟨v.x + q.qw * tx + q.qy * tz - q.qz * ty,
   v.y + q.qw * ty + q.qz * tx - q.qx * tz,
   v.z + q.qw * tz + q.qx * ty - q.qy * tx⟩

/-! ## Fixtures for the steering claims -/

/-- A streptococcus-typed entity at the origin with a pending wander
target, used to exercise the chase branch. -/
noncomputable def chaseBact : Bacteria ℝ :=
  ⟨vzero, streptococcusType, 2, vzero, some ⟨1, 0, 0⟩, 5⟩

/-- A wander entity sitting exactly on its own wander target, with a
nonzero velocity. -/
noncomputable def atTargetBact : Bacteria ℝ :=
  ⟨⟨1, 2, 3⟩, ecoliType, 1, ⟨3, 0, 0⟩, some ⟨1, 2, 3⟩, 5⟩

/-- A dead entity with nonzero velocity, for the dead-skip witness. -/
noncomputable def deadBact : Bacteria ℝ :=
  ⟨⟨1, 2, 3⟩, ecoliType, 0, ⟨3, 0, 0⟩, none, 5⟩

/-- A concrete populated room for the spawner witness. -/
def spawnRoomFix : Room := ⟨⟨0, 0, 0⟩, 12, 6, 12, true⟩

/-- All-zero spawn draws for the spawner witness. -/
def spawnRandFix : SpawnRand := ⟨0, 0, 0, 0, 0⟩

/-! ## Fixtures for the scoring claims -/

/-- C2 run, pass 1: the projectile sits on a streptococcus-typed entity
with one remaining hit point; the true total spawned is 8. -/
def c2World0 : World :=
  ⟨[projAt ⟨0, 0, 0⟩],
   [bactAt streptococcusType 1 ⟨0, 0, 0⟩, bactAt ecoliType 1 ⟨100, 0, 0⟩],
   initState 8⟩

/-- C2 state after the first collision pass and its render. -/
def c2World1 : World := tick mountClosure 0 0 c2World0

/-- C2 run, pass 2: a fresh projectile sits on the surviving E. coli. -/
def c2World1p : World := { c2World1 with projectiles := [projAt ⟨100, 0, 0⟩] }

/-- C2 state after the second collision pass and its render. -/
def c2World2 : World := tick mountClosure 0 0 c2World1p

/-- C3 run: twenty entities were spawned in total; three E. coli remain
within reach and are killed one per pass. -/
def c3World0 : World :=
  ⟨[projAt ⟨0, 0, 0⟩],
   [bactAt ecoliType 1 ⟨0, 0, 0⟩, bactAt ecoliType 1 ⟨100, 0, 0⟩,
    bactAt ecoliType 1 ⟨200, 0, 0⟩],
   initState 20⟩

/-- C3 state after the first kill. -/
def c3World1 : World := tick mountClosure 0 0 c3World0

/-- C3 run, pass 2: a fresh projectile on the next E. coli. -/
def c3World1p : World := { c3World1 with projectiles := [projAt ⟨100, 0, 0⟩] }

/-- C3 state after the second kill. -/
def c3World2 : World := tick mountClosure 0 0 c3World1p

/-! ## Structural lemmas about the collision scan -/

/-- The bacteria list after the inner collision loop of one projectile is
the pointwise application of damageRule: every live bacteria strictly
within 0.6 units loses exactly one health; the loop does not stop at
the first hit. -/
theorem scanBacteria_fst (ppos : Vec3 ℚ) :
    ∀ (bs : List (Bacteria ℚ)) (i : ℕ),
      (scanBacteria ppos bs i).1 = bs.map (damageRule ppos)
  | [], _ => by simp [scanBacteria]
  | b :: rest, i => by
    by_cases h1 : b.health ≤ 0
    · have hd : damageRule ppos b = b := by
        unfold damageRule
        rw [if_neg]
        rintro ⟨h2, -⟩
        omega
      simp [scanBacteria, h1, hd, scanBacteria_fst ppos rest (i + 1)]
    · by_cases h2 : distSq ppos b.pos < 9 / 25
      · have hd : damageRule ppos b = { b with health := b.health - 1 } := by
          unfold damageRule
          rw [if_pos ⟨by omega, h2⟩]
        simp [scanBacteria, h1, h2, hd, scanBacteria_fst ppos rest (i + 1)]
      · have hd : damageRule ppos b = b := by
          unfold damageRule
          rw [if_neg]
          rintro ⟨-, h3⟩
          exact h2 h3
        simp [scanBacteria, h1, h2, hd, scanBacteria_fst ppos rest (i + 1)]

/-- A bacteria index enters bacteriaToRemove only for a bacteria that was
live (health > 0) when this projectile scanned it, and whose health was
then 1 (so that the decrement brings it to 0). -/
theorem scanBacteria_killed_live (ppos : Vec3 ℚ) :
    ∀ (bs : List (Bacteria ℚ)) (i k : ℕ), k ∈ (scanBacteria ppos bs i).2.2 →
      ∃ j, ∃ h : j < bs.length, k = i + j ∧
        0 < (bs.get ⟨j, h⟩).health ∧ (bs.get ⟨j, h⟩).health ≤ 1
  | [], i, k => by simp [scanBacteria]
  | b :: rest, i, k => by
    intro hk
    by_cases h1 : b.health ≤ 0
    · simp only [scanBacteria, if_pos h1] at hk
      obtain ⟨j, hj, hkj, hlive, hone⟩ := scanBacteria_killed_live ppos rest (i + 1) k hk
      exact ⟨j + 1, by simpa using hj, by omega, hlive, hone⟩
    · by_cases h2 : distSq ppos b.pos < 9 / 25
      · simp only [scanBacteria, if_neg h1, if_pos h2] at hk
        by_cases h3 : b.health - 1 ≤ 0
        · simp only [if_pos h3, List.mem_cons] at hk
          rcases hk with rfl | hk
          · exact ⟨0, by simp, by omega, by simpa using (by omega : 0 < b.health),
              by simpa using (by omega : b.health ≤ 1)⟩
          · obtain ⟨j, hj, hkj, hlive, hone⟩ := scanBacteria_killed_live ppos rest (i + 1) k hk
            exact ⟨j + 1, by simpa using hj, by omega, hlive, hone⟩
        · simp only [if_neg h3] at hk
          obtain ⟨j, hj, hkj, hlive, hone⟩ := scanBacteria_killed_live ppos rest (i + 1) k hk
          exact ⟨j + 1, by simpa using hj, by omega, hlive, hone⟩
      · simp only [scanBacteria, if_neg h1, if_neg h2] at hk
        obtain ⟨j, hj, hkj, hlive, hone⟩ := scanBacteria_killed_live ppos rest (i + 1) k hk
        exact ⟨j + 1, by simpa using hj, by omega, hlive, hone⟩

/-- damageRule never drives health negative. -/
theorem damageRule_health_nonneg (ppos : Vec3 ℚ) (b : Bacteria ℚ) (h : 0 ≤ b.health) :
    0 ≤ (damageRule ppos b).health := by
  unfold damageRule
  split
  · rename_i hc
    obtain ⟨h1, -⟩ := hc
    simp
    omega
  · exact h

/-- damageRule never increases health. -/
theorem damageRule_health_le (ppos : Vec3 ℚ) (b : Bacteria ℚ) :
    (damageRule ppos b).health ≤ b.health := by
  unfold damageRule
  split
  · simp
  · exact le_refl _

/-- A dead bacteria (health <= 0) is untouched by the collision test. -/
theorem damageRule_dead (ppos : Vec3 ℚ) (b : Bacteria ℚ) (h : b.health ≤ 0) :
    damageRule ppos b = b := by
  unfold damageRule
  rw [if_neg]
  rintro ⟨h1, -⟩
  omega

/-- Every bacteria coming out of the outer projectile loop satisfies the
health >= 0 invariant when every bacteria going in does. -/
theorem projLoop_bacteria_nonneg (now dt : ℚ) :
    ∀ (ps : List (Projectile ℚ)) (i : ℕ) (bs : List (Bacteria ℚ)),
      (∀ b ∈ bs, 0 ≤ b.health) →
      ∀ b' ∈ (projLoop now dt ps i bs).bacteria, 0 ≤ b'.health
  | [], i, bs => by
    intro hbs b' hb'
    simp only [projLoop] at hb'
    exact hbs b' hb'
  | p :: ps, i, bs => by
    intro hbs b' hb'
    by_cases h1 : 3000 < now - p.createdAt
    · simp only [projLoop, if_pos h1] at hb'
      exact projLoop_bacteria_nonneg now dt ps (i + 1) bs hbs b' hb'
    · simp only [projLoop, if_neg h1] at hb'
      refine projLoop_bacteria_nonneg now dt ps (i + 1) _ ?_ b' hb'
      intro c hc
      rw [scanBacteria_fst] at hc
      obtain ⟨c0, hc0, rfl⟩ := List.mem_map.1 hc
      exact damageRule_health_nonneg _ c0 (hbs c0 hc0)

/-- scoreKills only removes bacteria, so its output list is contained in
its input list. -/
theorem scoreKills_subset (cl : EffectClosure) :
    ∀ (idxs : List ℕ) (bs : List (Bacteria ℚ)) (st : ScoreState),
      (scoreKills cl idxs bs st).1 ⊆ bs
  | [], bs, st => by simp [scoreKills]
  | i :: rest, bs, st => by
    cases hg : bs.get? i with
    | none =>
      simp only [scoreKills, hg]
      exact scoreKills_subset cl rest bs st
    | some b =>
      simp only [scoreKills, hg]
      exact (scoreKills_subset cl rest (bs.eraseIdx i) _).trans
        (List.eraseIdx_sublist bs i).subset

/-! ## Claim C1: projectile hit multiplicity per pass -/

/-- C1 counterexample: one projectile whose position is strictly within
0.6 units of two live entities damages both of them in the same
collision pass (the inner loop does not stop after the first resolved
hit), and both enter bacteriaToRemove.  This refutes the claim that a
projectile damages at most one entity per pass. -/
theorem c1_counterexample :
    ((projLoop 0 0 [projAt ⟨0, 0, 0⟩] 0
        [bactAt ecoliType 1 ⟨1/2, 0, 0⟩, bactAt ecoliType 1 ⟨0, 1/2, 0⟩]).bacteria.map
      (fun b => b.health)) = [0, 0] ∧
    (projLoop 0 0 [projAt ⟨0, 0, 0⟩] 0
        [bactAt ecoliType 1 ⟨1/2, 0, 0⟩, bactAt ecoliType 1 ⟨0, 1/2, 0⟩]).bactRemove
      = [0, 1] := by
  norm_num [projLoop, scanBacteria, moveProjectile, projAt, bactAt, ecoliType,
    vadd, vsub, vsmul, vzero, dot, normSq, distSq]

/-- C1 amended: in one collision pass a projectile damages every live
entity strictly within 0.6 units of it, each by exactly one hit point
(first conjunct, the pointwise damageRule characterization); a
projectile that registered a hit is spliced out at the end of the pass
and therefore registers hits in at most one pass (second conjunct, on a
concrete two-victim pass); and one entity can be hit by several
different projectiles in the same pass, each hit independently
decrementing its hit points (third conjunct: two projectiles drive one
health-2 entity to 0 in a single pass). -/
theorem c1_amended_thm :
    (∀ (ppos : Vec3 ℚ) (bs : List (Bacteria ℚ)),
        (scanBacteria ppos bs 0).1 = bs.map (damageRule ppos)) ∧
    (updateProjectiles mountClosure 0 0
        ⟨[projAt ⟨0, 0, 0⟩],
         [bactAt ecoliType 1 ⟨1/2, 0, 0⟩, bactAt ecoliType 1 ⟨0, 1/2, 0⟩],
         initState 8⟩).projectiles = [] ∧
    ((projLoop 0 0 [projAt ⟨0, 0, 0⟩, projAt ⟨0, 0, 0⟩] 0
        [bactAt streptococcusType 2 ⟨0, 0, 0⟩]).bacteria.map (fun b => b.health)) = [0] := by
  refine ⟨fun ppos bs => scanBacteria_fst ppos bs 0, ?_, ?_⟩
  · norm_num [updateProjectiles, projLoop, scanBacteria, moveProjectile, scoreKills,
      killStep, completionThreshold, uniqueDesc, sortDesc, insertDesc, dedupIdx,
      spliceIdxsDesc, projAt, bactAt, ecoliType, streptococcusType, initState,
      mountClosure, vadd, vsub, vsmul, vzero, dot, normSq, distSq, List.eraseIdx, min_def]
  · norm_num [projLoop, scanBacteria, moveProjectile, projAt, bactAt,
      streptococcusType, vadd, vsub, vsmul, vzero, dot, normSq, distSq]

/-! ## Claim C2: score evolution -/

/-- C2 is a code bug: the useEffect(..., []) closure reads score = 0 and
gameComplete = false forever, so each kill sets the score to that kill
points (plus the +50 completion bonus that re-fires on every kill)
instead of accumulating.  Killing a 25-point entity and then a 10-point
entity yields score 75 and then 60: the score strictly decreases across
kills, the onScoreUpdate values are 25, 10 rather than cumulative
25, 35, and neither increment equals the claimed pattern.  The claim
(non-decreasing score, increasing by exactly the point value at the
killing hit) matches the obvious intent of lines 601-604 but not the
behaviour of the code. -/
theorem c2_code_evaluation :
    c2World1.state.score = 75 ∧ c2World2.state.score = 60 ∧
    c2World2.state.score < c2World1.state.score ∧
    c2World2.state.scoreUpdates = [25, 10] ∧ c2World2.state.killed = 2 := by
  norm_num [c2World2, c2World1p, c2World1, c2World0, tick, updateProjectiles,
    projLoop, scanBacteria, moveProjectile, scoreKills, killStep, syncEffect,
    completionThreshold, uniqueDesc, sortDesc, insertDesc, dedupIdx, spliceIdxsDesc,
    projAt, bactAt, ecoliType, streptococcusType, initState, mountClosure,
    vadd, vsub, vsmul, vzero, dot, normSq, distSq, List.eraseIdx, min_def]

/-! ## Claim C3: completion transition -/

/-- C3 is a code bug: the completion check inside updateProjectiles reads
the captured totalBacteria = 0 and gameComplete = false of the first
render, so Math.ceil(totalBacteria * 0.8) is 0 and the completion
branch fires on every kill.  With 20 entities spawned the claimed
threshold is ceil(0.8 * 20) = 16, yet the code marks the game complete
and invokes onComplete(min(100, score + 50)) already at the first kill,
and invokes it again at the second kill: the transition is neither
triggered at the threshold nor one-shot.  The comment at line 612
(check for completion, 80 percent killed) documents the intent the
claim states. -/
theorem c3_code_evaluation :
    completionThreshold 20 = 16 ∧
    c3World1.state.killed = 1 ∧ c3World1.state.complete = true ∧
    c3World1.state.completeCalls = [60] ∧
    c3World2.state.completeCalls = [60, 60] := by
  norm_num [c3World2, c3World1p, c3World1, c3World0, tick, updateProjectiles,
    projLoop, scanBacteria, moveProjectile, scoreKills, killStep, syncEffect,
    completionThreshold, uniqueDesc, sortDesc, insertDesc, dedupIdx, spliceIdxsDesc,
    projAt, bactAt, ecoliType, initState, mountClosure,
    vadd, vsub, vsmul, vzero, dot, normSq, distSq, List.eraseIdx, min_def]

/-! ## Claim C4: health floor and dead-entity skipping -/

/-- C4: (1) a full updateProjectiles call keeps every surviving bacteria
at health >= 0 whenever every incoming bacteria is; (2) the Steering
Controller skips a dead entity entirely (the step is the identity);
(3) the Collision Detector leaves a dead entity untouched; (4) only
bacteria that are live when scanned can enter the kill list; (5) a
collision test never increases health, so an entity dead at some tick
stays dead at every later tick (and is in fact spliced out in the tick
that killed it). -/
theorem c4_thm :
    (∀ (cl : EffectClosure) (now dt : ℚ) (w : World),
        (∀ b ∈ w.bacteria, 0 ≤ b.health) →
        ∀ b' ∈ (updateProjectiles cl now dt w).bacteria, 0 ≤ b'.health) ∧
    (∀ (pp : Vec3 ℝ) (dt : ℝ) (rnd : SteerRand) (b : Bacteria ℝ),
        b.health ≤ 0 → steerStep pp dt rnd b = b) ∧
    (∀ (ppos : Vec3 ℚ) (b : Bacteria ℚ), b.health ≤ 0 → damageRule ppos b = b) ∧
    (∀ (ppos : Vec3 ℚ) (bs : List (Bacteria ℚ)) (k : ℕ),
        k ∈ (scanBacteria ppos bs 0).2.2 →
        ∃ h : k < bs.length, 0 < (bs.get ⟨k, h⟩).health) ∧
    (∀ (ppos : Vec3 ℚ) (b : Bacteria ℚ), (damageRule ppos b).health ≤ b.health) := by
  refine ⟨?_, ?_, ?_, ?_, ?_⟩
  · intro cl now dt w hw b' hb'
    simp only [updateProjectiles] at hb'
    have hsub := scoreKills_subset cl
      (uniqueDesc (projLoop now dt w.projectiles 0 w.bacteria).bactRemove)
      (projLoop now dt w.projectiles 0 w.bacteria).bacteria w.state hb'
    exact projLoop_bacteria_nonneg now dt w.projectiles 0 w.bacteria hw b' hsub
  · intro pp dt rnd b h
    unfold steerStep
    rw [if_pos h]
  · exact damageRule_dead
  · intro ppos bs k hk
    obtain ⟨j, hj, hkj, hlive, -⟩ := scanBacteria_killed_live ppos bs 0 k hk
    have hjk : j = k := by omega
    subst hjk
    exact ⟨hj, hlive⟩
  · exact damageRule_health_le

/-- C4 witness: on a concrete pass the surviving bacteria has health
>= 0, and a concrete dead entity is untouched by a steering step. -/
theorem c4_witness :
    0 ≤ (bactAt ecoliType 1 ⟨100, 0, 0⟩).health ∧
    steerStep vzero 1 ⟨0, 0, 0, 0⟩ deadBact = deadBact := by
  refine ⟨c4_thm.1 mountClosure 0 0
      ⟨[projAt ⟨0, 0, 0⟩],
       [bactAt ecoliType 1 ⟨0, 0, 0⟩, bactAt ecoliType 1 ⟨100, 0, 0⟩],
       initState 8⟩ ?_ (bactAt ecoliType 1 ⟨100, 0, 0⟩) ?_,
    c4_thm.2.1 vzero 1 ⟨0, 0, 0, 0⟩ deadBact (by norm_num [deadBact])⟩
  · intro b hb
    simp only [List.mem_cons, List.not_mem_nil, or_false] at hb
    rcases hb with rfl | rfl <;> norm_num [bactAt]
  · norm_num [updateProjectiles, projLoop, scanBacteria, moveProjectile, scoreKills,
      killStep, completionThreshold, uniqueDesc, sortDesc, insertDesc, dedupIdx,
      spliceIdxsDesc, projAt, bactAt, ecoliType, initState, mountClosure,
      vadd, vsub, vsmul, vzero, dot, normSq, distSq, List.eraseIdx, min_def]

/-! ## Claim C5: level generation -/

/-- Bounds of a peripheral room whose three draws lie in [0, 1). -/
theorem peripheralRoom_bounds (dir : Vec3 ℚ) (t : ℚ × ℚ × ℚ)
    (h : 0 ≤ t.1 ∧ t.1 < 1 ∧ 0 ≤ t.2.1 ∧ t.2.1 < 1 ∧ 0 ≤ t.2.2 ∧ t.2.2 < 1) :
    (peripheralRoom dir t).hasBacteria = true ∧
    10 ≤ (peripheralRoom dir t).width ∧ (peripheralRoom dir t).width ≤ 16 ∧
    5 ≤ (peripheralRoom dir t).height ∧ (peripheralRoom dir t).height ≤ 8 ∧
    10 ≤ (peripheralRoom dir t).depth ∧ (peripheralRoom dir t).depth ≤ 16 := by
  obtain ⟨h1, h2, h3, h4, h5, h6⟩ := h
  refine ⟨rfl, ?_, ?_, ?_, ?_, ?_, ?_⟩ <;> simp only [peripheralRoom] <;> linarith

/-- C5: every generated level has exactly 5 rooms; room 0 is the spawn
room at the origin (12 x 6 x 12) with the bacteria flag off; the four
peripheral rooms sit at the hard-coded offsets, are flagged, and have
width and depth in [10, 16] and height in [5, 8].  Generation is a
total function of its random draws, so it cannot fail. -/
theorem c5_thm (r : Fin 4 → ℚ × ℚ × ℚ)
    (hr : ∀ i : Fin 4, 0 ≤ (r i).1 ∧ (r i).1 < 1 ∧ 0 ≤ (r i).2.1 ∧ (r i).2.1 < 1 ∧
          0 ≤ (r i).2.2 ∧ (r i).2.2 < 1) :
    (generateLevel r).length = 5 ∧
    (generateLevel r).head? = some ⟨⟨0, 0, 0⟩, 12, 6, 12, false⟩ ∧
    (generateLevel r).tail.map Room.position = roomDirections ∧
    ∀ room ∈ (generateLevel r).tail, room.hasBacteria = true ∧
      10 ≤ room.width ∧ room.width ≤ 16 ∧ 5 ≤ room.height ∧ room.height ≤ 8 ∧
      10 ≤ room.depth ∧ room.depth ≤ 16 := by
  refine ⟨by simp [generateLevel], by simp [generateLevel],
    by simp [generateLevel, peripheralRoom, roomDirections], ?_⟩
  intro room hm
  simp only [generateLevel, List.tail_cons, List.mem_cons, List.not_mem_nil,
    or_false] at hm
  rcases hm with rfl | rfl | rfl | rfl
  · exact peripheralRoom_bounds _ _ (hr 0)
  · exact peripheralRoom_bounds _ _ (hr 1)
  · exact peripheralRoom_bounds _ _ (hr 2)
  · exact peripheralRoom_bounds _ _ (hr 3)

/-- C5 witness: the level generated from all-zero draws. -/
theorem c5_witness :
    (generateLevel (fun _ => ((0 : ℚ), (0 : ℚ), (0 : ℚ)))).length = 5 ∧
    (generateLevel (fun _ => ((0 : ℚ), (0 : ℚ), (0 : ℚ)))).head? =
      some ⟨⟨0, 0, 0⟩, 12, 6, 12, false⟩ ∧
    (generateLevel (fun _ => ((0 : ℚ), (0 : ℚ), (0 : ℚ)))).tail.map Room.position =
      roomDirections ∧
    (peripheralRoom ⟨0, 0, -20⟩ ((0 : ℚ), (0 : ℚ), (0 : ℚ))).hasBacteria = true ∧
    10 ≤ (peripheralRoom ⟨0, 0, -20⟩ ((0 : ℚ), (0 : ℚ), (0 : ℚ))).width := by
  have h := c5_thm (fun _ => ((0 : ℚ), (0 : ℚ), (0 : ℚ))) (by norm_num)
  have hm := h.2.2.2 (peripheralRoom ⟨0, 0, -20⟩ ((0 : ℚ), (0 : ℚ), (0 : ℚ)))
    (by simp [generateLevel])
  exact ⟨h.1, h.2.1, h.2.2.1, hm.1, hm.2.1⟩

/-! ## Claim C6: entity spawning -/

/-- The string-keyed type lookup always lands in the type table. -/
theorem bacteriaTypes_getD_mem (k : ℕ) :
    (bacteriaTypes : List (BacteriaType ℚ)).getD k ecoliType ∈
      (bacteriaTypes : List (BacteriaType ℚ)) := by
  match k with
  | 0 => norm_num [bacteriaTypes, List.getD]
  | 1 => norm_num [bacteriaTypes, List.getD]
  | n + 2 => norm_num [bacteriaTypes, List.getD]

/-- The per-room entity count 3 + floor(rc * 3) lies in [3, 5]. -/
theorem spawnCount_bounds (rc : ℚ) (h0 : 0 ≤ rc) (h1 : rc < 1) :
    3 ≤ 3 + (Int.floor (rc * 3)).toNat ∧ 3 + (Int.floor (rc * 3)).toNat ≤ 5 := by
  have hf0 : 0 ≤ Int.floor (rc * 3) := Int.floor_nonneg.2 (by linarith)
  have hf3 : Int.floor (rc * 3) < 3 := by
    rw [Int.floor_lt]
    push_cast
    linarith
  omega

/-- Placement bounds of one spawned entity in a room of width and depth
at least the wall margin 2, given in-range draws. -/
theorem spawnOne_bounds (room : Room) (rnd : SpawnRand)
    (hw : 2 ≤ room.width) (hd : 2 ≤ room.depth)
    (h : 0 ≤ rnd.rx ∧ rnd.rx < 1 ∧ 0 ≤ rnd.ry ∧ rnd.ry < 1 ∧ 0 ≤ rnd.rz ∧ rnd.rz < 1) :
    (spawnOne room rnd).btype ∈ (bacteriaTypes : List (BacteriaType ℚ)) ∧
    room.position.x - (room.width - 2) / 2 ≤ (spawnOne room rnd).pos.x ∧
    (spawnOne room rnd).pos.x ≤ room.position.x + (room.width - 2) / 2 ∧
    1 ≤ (spawnOne room rnd).pos.y ∧ (spawnOne room rnd).pos.y ≤ 3 ∧
    room.position.z - (room.depth - 2) / 2 ≤ (spawnOne room rnd).pos.z ∧
    (spawnOne room rnd).pos.z ≤ room.position.z + (room.depth - 2) / 2 := by
  obtain ⟨h1, h2, h3, h4, h5, h6⟩ := h
  have hwnn : (0 : ℚ) ≤ room.width - 2 := by linarith
  have hdnn : (0 : ℚ) ≤ room.depth - 2 := by linarith
  have hxu : (rnd.rx - 1/2) * (room.width - 2) ≤ (1/2) * (room.width - 2) :=
    mul_le_mul_of_nonneg_right (by linarith) hwnn
  have hxl : (-(1/2)) * (room.width - 2) ≤ (rnd.rx - 1/2) * (room.width - 2) :=
    mul_le_mul_of_nonneg_right (by linarith) hwnn
  have hzu : (rnd.rz - 1/2) * (room.depth - 2) ≤ (1/2) * (room.depth - 2) :=
    mul_le_mul_of_nonneg_right (by linarith) hdnn
  have hzl : (-(1/2)) * (room.depth - 2) ≤ (rnd.rz - 1/2) * (room.depth - 2) :=
    mul_le_mul_of_nonneg_right (by linarith) hdnn
  refine ⟨?_, ?_, ?_, ?_, ?_, ?_, ?_⟩
  · simp only [spawnOne]
    exact bacteriaTypes_getD_mem _
  all_goals (simp only [spawnOne]; linarith)

/-- The running total of the mount effect equals the sum of the per-room
counts over the flagged rooms. -/
theorem foldl_spawnSum (f : ℕ × Room → ℕ) :
    ∀ (l : List (ℕ × Room)) (acc : ℕ),
      l.foldl (fun a p => if p.2.hasBacteria then a + f p else a) acc =
      acc + ((l.filter (fun p => p.2.hasBacteria)).map f).sum
  | [], acc => by simp
  | p :: l, acc => by
    by_cases hp : p.2.hasBacteria = true
    · simp [hp, foldl_spawnSum f l (acc + f p)]
      omega
    · simp [hp, foldl_spawnSum f l acc]

/-- The two halves of the unit interval select the two entity types. -/
theorem spawnOne_type_choice (room : Room) (rnd : SpawnRand) (h0 : 0 ≤ rnd.rType) :
    (rnd.rType < 1/2 → (spawnOne room rnd).btype = ecoliType) ∧
    (1/2 ≤ rnd.rType → rnd.rType < 1 → (spawnOne room rnd).btype = streptococcusType) := by
  constructor
  · intro hlt
    have hf : Int.floor (rnd.rType * 2) = 0 := by
      rw [Int.floor_eq_iff]
      constructor <;> push_cast <;> linarith
    norm_num [spawnOne, hf, bacteriaTypes, List.getD]
  · intro hge hlt
    have hf : Int.floor (rnd.rType * 2) = 1 := by
      rw [Int.floor_eq_iff]
      constructor <;> push_cast <;> linarith
    norm_num [spawnOne, hf, bacteriaTypes, List.getD]

/-- C6: in a flagged room with in-range draws, between 3 and 5 entities
are created; the returned count equals the number of entities actually
created; every entity has a type from the table chosen by halving the
unit interval, sits horizontally within the room extents minus the
wall margin and at a height in [1, 3]; and the running total handed to
setTotalBacteria is the sum of the per-room counts over the flagged
rooms. -/
theorem c6_thm (room : Room) (rc : ℚ) (rs : ℕ → SpawnRand)
    (hw : 2 ≤ room.width) (hd : 2 ≤ room.depth)
    (hrc : 0 ≤ rc ∧ rc < 1)
    (hrs : ∀ i, 0 ≤ (rs i).rx ∧ (rs i).rx < 1 ∧ 0 ≤ (rs i).ry ∧ (rs i).ry < 1 ∧
           0 ≤ (rs i).rz ∧ (rs i).rz < 1) :
    (3 ≤ (spawnBacteriaInRoom room rc rs).2 ∧ (spawnBacteriaInRoom room rc rs).2 ≤ 5) ∧
    (spawnBacteriaInRoom room rc rs).1.length = (spawnBacteriaInRoom room rc rs).2 ∧
    (∀ b ∈ (spawnBacteriaInRoom room rc rs).1,
        b.btype ∈ (bacteriaTypes : List (BacteriaType ℚ)) ∧
        room.position.x - (room.width - 2) / 2 ≤ b.pos.x ∧
        b.pos.x ≤ room.position.x + (room.width - 2) / 2 ∧
        1 ≤ b.pos.y ∧ b.pos.y ≤ 3 ∧
        room.position.z - (room.depth - 2) / 2 ≤ b.pos.z ∧
        b.pos.z ≤ room.position.z + (room.depth - 2) / 2) ∧
    (∀ (rooms : List Room) (rcs : ℕ → ℚ) (rss : ℕ → ℕ → SpawnRand),
        totalSpawned rooms rcs rss =
          ((rooms.enum.filter (fun p => p.2.hasBacteria)).map
            (fun p => (spawnBacteriaInRoom p.2 (rcs p.1) (rss p.1)).2)).sum) ∧
    (∀ rnd : SpawnRand, 0 ≤ rnd.rType →
        (rnd.rType < 1/2 → (spawnOne room rnd).btype = ecoliType) ∧
        (1/2 ≤ rnd.rType → rnd.rType < 1 →
          (spawnOne room rnd).btype = streptococcusType)) := by
  refine ⟨spawnCount_bounds rc hrc.1 hrc.2, ?_, ?_, ?_, ?_⟩
  · simp [spawnBacteriaInRoom]
  · intro b hb
    simp only [spawnBacteriaInRoom, List.mem_map, List.mem_range] at hb
    obtain ⟨i, -, rfl⟩ := hb
    exact spawnOne_bounds room (rs i) hw hd (hrs i)
  · intro rooms rcs rss
    simpa using foldl_spawnSum
      (fun p => (spawnBacteriaInRoom p.2 (rcs p.1) (rss p.1)).2) rooms.enum 0
  · intro rnd h0
    exact spawnOne_type_choice room rnd h0

/-- C6 witness: the spawner on a concrete 12 x 6 x 12 room with all-zero
draws creates exactly 3 entities, reports 3, places the first one at
height 1, and the total over the one-room list is 3. -/
theorem c6_witness :
    (3 ≤ (spawnBacteriaInRoom spawnRoomFix 0 (fun _ => spawnRandFix)).2 ∧
      (spawnBacteriaInRoom spawnRoomFix 0 (fun _ => spawnRandFix)).2 ≤ 5) ∧
    (spawnBacteriaInRoom spawnRoomFix 0 (fun _ => spawnRandFix)).1.length =
      (spawnBacteriaInRoom spawnRoomFix 0 (fun _ => spawnRandFix)).2 ∧
    1 ≤ (spawnOne spawnRoomFix spawnRandFix).pos.y ∧
    totalSpawned [spawnRoomFix] (fun _ => 0) (fun _ _ => spawnRandFix) =
      (([spawnRoomFix].enum.filter (fun p => p.2.hasBacteria)).map
        (fun p => (spawnBacteriaInRoom p.2 0 (fun _ => spawnRandFix)).2)).sum ∧
    (spawnOne spawnRoomFix spawnRandFix).btype = ecoliType := by
  have h := c6_thm spawnRoomFix 0 (fun _ => spawnRandFix)
    (by norm_num [spawnRoomFix]) (by norm_num [spawnRoomFix])
    (by norm_num) (by norm_num [spawnRandFix])
  refine ⟨h.1, h.2.1, ?_, ?_, ?_⟩
  · have hm := h.2.2.1 (spawnOne spawnRoomFix spawnRandFix) ?_
    · exact hm.2.2.2.1
    · simp only [spawnBacteriaInRoom]
      exact List.mem_map_of_mem _ (List.mem_range.2 (show (0 : ℕ) < _ by norm_num))
  · simpa using h.2.2.2.1 [spawnRoomFix] (fun _ => 0) (fun _ _ => spawnRandFix)
  · exact (h.2.2.2.2 spawnRandFix (by norm_num [spawnRandFix])).1
      (by norm_num [spawnRandFix])

/-! ## Claim C7: the chase (pursue) branch -/

/-- C7: for a live entity with the chase behavior tag, one steering step
updates the velocity by vlerp toward the normalized player direction
times the type speed with factor 0.05 when the player is strictly
closer than 15 units; otherwise (so in particular at distance exactly
16) it falls back to the wander rule: the periodically re-chosen random
target drives the velocity with factor 0.02 at half the type speed. -/
theorem c7_thm (pp : Vec3 ℝ) (dt : ℝ) (rnd : SteerRand) (b : Bacteria ℝ)
    (hb : b.btype.behavior = Behavior.chase) (hlive : 0 < b.health) :
    (vdist b.pos pp < 15 →
      (steerStep pp dt rnd b).vel =
        vlerp b.vel (vsmul b.btype.speed (vnormalize (vsub pp b.pos))) (5/100)) ∧
    (15 ≤ vdist b.pos pp →
      (steerStep pp dt rnd b).vel =
        vlerp b.vel
          (vsmul (b.btype.speed * (1/2))
            (vnormalize (vsub (wanderChoice b.pos b.targetPosition (b.wanderTimer - dt) 0
              rnd.r1 rnd.r2 rnd.r3 rnd.r4).1 b.pos))) (2/100) ∧
      (steerStep pp dt rnd b).targetPosition =
        some (wanderChoice b.pos b.targetPosition (b.wanderTimer - dt) 0
          rnd.r1 rnd.r2 rnd.r3 rnd.r4).1) := by
  have hne : ¬ b.health ≤ 0 := by omega
  constructor
  · intro hlt
    unfold steerStep
    rw [if_neg hne, hb]
    simp only []
    rw [if_pos hlt]
    simp [applyVelocity]
  · intro hge
    have hnlt : ¬ vdist b.pos pp < 15 := by linarith
    unfold steerStep
    rw [if_neg hne, hb]
    simp only []
    rw [if_neg hnlt]
    exact ⟨by simp [applyVelocity], by simp [applyVelocity]⟩

/-- C7 witness: the concrete chase entity placed exactly 16 units from
the player falls back to the half-speed wander rule. -/
theorem c7_witness :
    (steerStep ⟨16, 0, 0⟩ (1/10) ⟨0, 0, 0, 0⟩ chaseBact).vel =
      vlerp chaseBact.vel
        (vsmul (chaseBact.btype.speed * (1/2))
          (vnormalize (vsub (wanderChoice chaseBact.pos chaseBact.targetPosition
            (chaseBact.wanderTimer - 1/10) 0 (0:ℝ) 0 0 0).1 chaseBact.pos))) (2/100) ∧
    (steerStep ⟨16, 0, 0⟩ (1/10) ⟨0, 0, 0, 0⟩ chaseBact).targetPosition =
      some (wanderChoice chaseBact.pos chaseBact.targetPosition
        (chaseBact.wanderTimer - 1/10) 0 (0:ℝ) 0 0 0).1 := by
  have hd : vdist chaseBact.pos (⟨16, 0, 0⟩ : Vec3 ℝ) = 16 := by
    have h1 : normSq (vsub chaseBact.pos (⟨16, 0, 0⟩ : Vec3 ℝ)) = 256 := by
      norm_num [chaseBact, vzero, vsub, normSq, dot]
    rw [vdist, vlength, h1, show (256:ℝ) = 16^2 by norm_num,
      Real.sqrt_sq (by norm_num : (0:ℝ) ≤ 16)]
  exact (c7_thm ⟨16, 0, 0⟩ (1/10) ⟨0, 0, 0, 0⟩ chaseBact rfl
    (by norm_num [chaseBact, streptococcusType])).2 (by rw [hd]; norm_num)

/-! ## Claim C9: zero-length normalization -/

/-- The zero vector has length 0. -/
theorem vlength_vzero : vlength (vzero : Vec3 ℝ) = 0 := by
  simp [vlength, normSq, dot, vzero]

/-- Normalizing a zero-length vector returns it unchanged (the internal
guard divides by 1). -/
theorem vnormalize_zero_length (v : Vec3 ℝ) (h : vlength v = 0) : vnormalize v = v := by
  simp only [vnormalize, h, if_pos]
  norm_num [vsmul]

/-- Length scales by the absolute value of the scalar. -/
theorem vlength_smul (c : ℝ) (v : Vec3 ℝ) : vlength (vsmul c v) = |c| * vlength v := by
  simp only [vlength, normSq, dot, vsmul]
  rw [show c * v.x * (c * v.x) + c * v.y * (c * v.y) + c * v.z * (c * v.z)
      = c^2 * (v.x * v.x + v.y * v.y + v.z * v.z) by ring]
  rw [Real.sqrt_mul (sq_nonneg c), Real.sqrt_sq_eq_abs]

/-- Lengths are nonnegative. -/
theorem vlength_nonneg (v : Vec3 ℝ) : 0 ≤ vlength v := Real.sqrt_nonneg _

/-- Normalizing a vector of nonzero length yields a unit vector. -/
theorem vnormalize_length (v : Vec3 ℝ) (h : vlength v ≠ 0) :
    vlength (vnormalize v) = 1 := by
  have hpos : 0 < vlength v := lt_of_le_of_ne (vlength_nonneg v) (Ne.symm h)
  have hv : vnormalize v = vsmul (1 / vlength v) v := by simp [vnormalize, h]
  rw [hv, vlength_smul, abs_of_pos (by positivity), one_div, inv_mul_cancel₀ h]

/-- Rotating by a unit quaternion preserves the squared length (an
algebraic identity of the THREE formula). -/
theorem normSq_applyQuaternion (q : Quat) (v : Vec3 ℝ)
    (hq : q.qx^2 + q.qy^2 + q.qz^2 + q.qw^2 = 1) :
    normSq (applyQuaternion q v) = normSq v := by
  simp only [applyQuaternion, normSq, dot]
  linear_combination (4 * ((q.qy * v.z - q.qz * v.y)^2 + (q.qz * v.x - q.qx * v.z)^2 +
    (q.qx * v.y - q.qy * v.x)^2)) * hq

/-- C9 counterexample: a wander entity sitting exactly on its own wander
target.  No safe default direction is substituted: the code normalizes
the zero offset, obtains the zero vector (length 0, not a unit
direction) and smooths the velocity toward speed times that zero
vector, so the velocity merely decays by the factor 1 - 0.02.  Had a
unit default direction d been substituted, the new velocity would have
been vlerp of the old velocity toward speed times d, which differs from
pure decay. -/
theorem c9_counterexample :
    (steerStep ⟨50, 0, 0⟩ (1/10) ⟨0, 0, 0, 0⟩ atTargetBact).vel =
      vsmul (49/50) ⟨3, 0, 0⟩ ∧
    vnormalize (vsub atTargetBact.pos atTargetBact.pos) = vzero ∧
    vlength (vnormalize (vsub atTargetBact.pos atTargetBact.pos)) = 0 := by
  have hz : vsub atTargetBact.pos atTargetBact.pos = (vzero : Vec3 ℝ) := by
    norm_num [atTargetBact, vsub, vzero]
  have hn : vnormalize (vzero : Vec3 ℝ) = vzero :=
    vnormalize_zero_length _ vlength_vzero
  refine ⟨?_, by rw [hz, hn], by rw [hz, hn, vlength_vzero]⟩
  unfold steerStep
  rw [if_neg (by norm_num [atTargetBact])]
  have hbeh : atTargetBact.btype.behavior = Behavior.wander := rfl
  rw [hbeh]
  simp only []
  have hc : wanderChoice atTargetBact.pos atTargetBact.targetPosition
      (atTargetBact.wanderTimer - 1/10) 2 (0:ℝ) 0 0 0 = (⟨1, 2, 3⟩, 49/10) := by
    rw [wanderChoice,
      if_neg (not_or.2 ⟨by norm_num [atTargetBact], by simp [atTargetBact]⟩)]
    norm_num [atTargetBact]
  rw [hc]
  have hdir : vnormalize (vsub (⟨1, 2, 3⟩ : Vec3 ℝ) atTargetBact.pos) = vzero := by
    have : vsub (⟨1, 2, 3⟩ : Vec3 ℝ) atTargetBact.pos = (vzero : Vec3 ℝ) := by
      norm_num [atTargetBact, vsub, vzero]
    rw [this, hn]
  rw [hdir]
  norm_num [applyVelocity, vlerp, vadd, vsub, vsmul, vzero, atTargetBact, ecoliType]

/-- C9 amended: there is no explicit zero-length check at the
normalization call sites; instead the normalize operation itself is
internally guarded (it divides by 1 when the length is 0), so a
zero-length steering offset yields the zero vector rather than a
division by zero or a substituted safe default direction, any nonzero
offset normalizes to a unit vector, and the projectile direction needs
no normalization at all: it is (0, 0, -1) rotated by the unit camera
quaternion, which always has length 1. -/
theorem c9_amended_thm :
    (∀ v : Vec3 ℝ, vlength v = 0 → vnormalize v = v) ∧
    (∀ v : Vec3 ℝ, vlength v ≠ 0 → vlength (vnormalize v) = 1) ∧
    (∀ q : Quat, q.qx^2 + q.qy^2 + q.qz^2 + q.qw^2 = 1 →
      vlength (applyQuaternion q ⟨0, 0, -1⟩) = 1) := by
  refine ⟨vnormalize_zero_length, vnormalize_length, ?_⟩
  intro q hq
  have h1 : normSq (applyQuaternion q ⟨0, 0, -1⟩) = 1 := by
    rw [normSq_applyQuaternion q _ hq]
    norm_num [normSq, dot]
  rw [vlength, h1, Real.sqrt_one]

/-- C9 amended witness: the zero vector normalizes to itself, the vector
(3, 0, 4) of length 5 normalizes to a unit vector, and the identity
quaternion sends (0, 0, -1) to a unit direction. -/
theorem c9_amended_witness :
    vnormalize (vzero : Vec3 ℝ) = vzero ∧
    vlength (vnormalize ⟨3, 0, 4⟩) = 1 ∧
    vlength (applyQuaternion ⟨0, 0, 0, 1⟩ ⟨0, 0, -1⟩) = 1 := by
  have h25 : vlength (⟨3, 0, 4⟩ : Vec3 ℝ) = 5 := by
    have h1 : normSq (⟨3, 0, 4⟩ : Vec3 ℝ) = 25 := by norm_num [normSq, dot]
    rw [vlength, h1, show (25:ℝ) = 5^2 by norm_num,
      Real.sqrt_sq (by norm_num : (0:ℝ) ≤ 5)]
  exact ⟨c9_amended_thm.1 vzero vlength_vzero,
    c9_amended_thm.2.1 ⟨3, 0, 4⟩ (by rw [h25]; norm_num),
    c9_amended_thm.2.2 ⟨0, 0, 0, 1⟩ (by norm_num)⟩

/-! ## Claim C10: speed bound on the velocity -/

/-- Squared lengths are nonnegative. -/
theorem normSq_nonneg_v (v : Vec3 ℝ) : 0 ≤ normSq v := by
  simp only [normSq, dot]
  nlinarith [mul_self_nonneg v.x, mul_self_nonneg v.y, mul_self_nonneg v.z]

/-- Squared length of a scalar multiple. -/
theorem normSq_vsmul (c : ℝ) (v : Vec3 ℝ) : normSq (vsmul c v) = c^2 * normSq v := by
  simp only [normSq, dot, vsmul]
  ring

/-- A normalized vector has squared length at most 1 (exactly 1 in the
nonzero case, 0 for the zero vector). -/
theorem normSq_vnormalize_le_one (v : Vec3 ℝ) : normSq (vnormalize v) ≤ 1 := by
  by_cases h : vlength v = 0
  · rw [vnormalize_zero_length v h]
    have h0 : normSq v ≤ 0 := Real.sqrt_eq_zero'.1 h
    linarith
  · have hns : normSq v ≠ 0 := by
      intro hz
      exact h (by rw [vlength, hz, Real.sqrt_zero])
    have hv : vnormalize v = vsmul (1 / vlength v) v := by simp [vnormalize, h]
    have hsq : vlength v ^ 2 = normSq v := Real.sq_sqrt (normSq_nonneg_v v)
    rw [hv, normSq_vsmul, div_pow, one_pow, hsq, one_div, inv_mul_cancel₀ hns]

/-- The Cauchy-Schwarz inequality in coordinates. -/
theorem dot_sq_le (v t : Vec3 ℝ) : (dot v t)^2 ≤ normSq v * normSq t := by
  simp only [normSq, dot]
  nlinarith [sq_nonneg (v.x * t.y - v.y * t.x), sq_nonneg (v.x * t.z - v.z * t.x),
    sq_nonneg (v.y * t.z - v.z * t.y)]

/-- A dot product of two vectors of length at most s is at most s^2. -/
theorem dot_le_sq (v t : Vec3 ℝ) (s : ℝ) (hv : normSq v ≤ s^2) (ht : normSq t ≤ s^2) :
    dot v t ≤ s^2 := by
  rcases le_or_lt (dot v t) 0 with h | h
  · exact h.trans (sq_nonneg s)
  · have h1 : (dot v t)^2 ≤ s^2 * s^2 :=
      (dot_sq_le v t).trans (mul_le_mul hv ht (normSq_nonneg_v t) (sq_nonneg s))
    nlinarith [sq_nonneg s]

/-- Linear interpolation between two vectors of length at most s stays
within length s. -/
theorem normSq_vlerp_le (v t : Vec3 ℝ) (a s : ℝ) (hv : normSq v ≤ s^2)
    (ht : normSq t ≤ s^2) (h0 : 0 ≤ a) (h1 : a ≤ 1) :
    normSq (vlerp v t a) ≤ s^2 := by
  have hd : dot v t ≤ s^2 := dot_le_sq v t s hv ht
  have hexp : normSq (vlerp v t a) =
      (1-a)^2 * normSq v + 2*a*(1-a) * dot v t + a^2 * normSq t := by
    simp only [vlerp, vadd, vsmul, vsub, normSq, dot]
    ring
  have hA : 0 ≤ (1-a)^2 * (s^2 - normSq v) :=
    mul_nonneg (sq_nonneg _) (by linarith)
  have hB : 0 ≤ 2*a*(1-a) * (s^2 - dot v t) :=
    mul_nonneg (mul_nonneg (by linarith) (by linarith)) (by linarith)
  have hC : 0 ≤ a^2 * (s^2 - normSq t) := mul_nonneg (sq_nonneg _) (by linarith)
  nlinarith [hA, hB, hC, hexp]

/-- The steering targets are at most the speed in length. -/
theorem normSq_smul_normalize_le (s : ℝ) (d : Vec3 ℝ) :
    normSq (vsmul s (vnormalize d)) ≤ s^2 := by
  rw [normSq_vsmul]
  calc s^2 * normSq (vnormalize d) ≤ s^2 * 1 :=
        mul_le_mul_of_nonneg_left (normSq_vnormalize_le_one d) (sq_nonneg s)
    _ = s^2 := mul_one _

/-- The position integration step does not touch the velocity. -/
theorem applyVelocity_vel (dt : ℝ) (b : Bacteria ℝ) :
    (applyVelocity dt b).vel = b.vel := rfl

/-- A steering step never changes the type reference of an entity. -/
theorem steerStep_btype (pp : Vec3 ℝ) (dt : ℝ) (rnd : SteerRand) (b : Bacteria ℝ) :
    (steerStep pp dt rnd b).btype = b.btype := by
  unfold steerStep
  split
  · rfl
  · split
    · rfl
    · split <;> rfl

/-- One steering step preserves the speed bound on the velocity: every
branch interpolates toward a target of length at most the type speed
(the full speed toward the wander target or the player, half of it in
the chase fallback) with a factor in [0, 1]. -/
theorem steerStep_vel_bound (pp : Vec3 ℝ) (dt : ℝ) (rnd : SteerRand) (b : Bacteria ℝ)
    (h : normSq b.vel ≤ b.btype.speed^2) :
    normSq (steerStep pp dt rnd b).vel ≤ b.btype.speed^2 := by
  unfold steerStep
  split
  · exact h
  · split
    · exact normSq_vlerp_le b.vel _ _ _ h (normSq_smul_normalize_le _ _)
        (by norm_num) (by norm_num)
    · split
      · exact normSq_vlerp_le b.vel _ _ _ h (normSq_smul_normalize_le _ _)
          (by norm_num) (by norm_num)
      · refine normSq_vlerp_le b.vel _ _ _ h ?_ (by norm_num) (by norm_num)
        refine (normSq_smul_normalize_le (b.btype.speed * (1/2)) _).trans ?_
        nlinarith [sq_nonneg b.btype.speed]

/-- The speed bound is preserved along any run of steering steps, and the
type reference never changes. -/
theorem steerRun_vel_bound :
    ∀ (steps : List (Vec3 ℝ × ℝ × SteerRand)) (b : Bacteria ℝ),
      normSq b.vel ≤ b.btype.speed^2 →
      normSq (steerRun steps b).vel ≤ (steerRun steps b).btype.speed^2 ∧
      (steerRun steps b).btype = b.btype
  | [], b => fun h2 => ⟨h2, rfl⟩
  | st :: steps, b => by
    intro h2
    have hbt := steerStep_btype st.1 st.2.1 st.2.2 b
    have hstep := steerStep_vel_bound st.1 st.2.1 st.2.2 b h2
    have hrec := steerRun_vel_bound steps (steerStep st.1 st.2.1 st.2.2 b)
      (by rw [hbt]; exact hstep)
    exact ⟨hrec.1, hrec.2.trans hbt⟩

/-- C10: the velocity of a spawned entity starts at the zero vector, and
along any sequence of steering steps the velocity magnitude never
exceeds the base speed of the entity type. -/
theorem c10_thm :
    (∀ (room : Room) (rc : ℚ) (rs : ℕ → SpawnRand),
        ∀ b ∈ (spawnBacteriaInRoom room rc rs).1, b.vel = vzero) ∧
    (∀ (steps : List (Vec3 ℝ × ℝ × SteerRand)) (b : Bacteria ℝ),
        b.vel = vzero → 0 ≤ b.btype.speed →
        vlength (steerRun steps b).vel ≤ b.btype.speed) := by
  constructor
  · intro room rc rs b hb
    simp only [spawnBacteriaInRoom, List.mem_map] at hb
    obtain ⟨i, -, rfl⟩ := hb
    rfl
  · intro steps b hvz hs
    have hz : normSq (vzero : Vec3 ℝ) = 0 := by norm_num [normSq, dot, vzero]
    have h0 : normSq b.vel ≤ b.btype.speed^2 := by
      rw [hvz, hz]
      positivity
    have h := steerRun_vel_bound steps b h0
    have h2 := h.1
    rw [h.2] at h2
    calc vlength (steerRun steps b).vel
        = Real.sqrt (normSq (steerRun steps b).vel) := rfl
      _ ≤ Real.sqrt (b.btype.speed^2) := Real.sqrt_le_sqrt h2
      _ = b.btype.speed := Real.sqrt_sq hs

/-- C10 witness: a freshly spawned entity has zero velocity, and the
concrete chase entity keeps its speed bound through a steering step. -/
theorem c10_witness :
    (spawnOne spawnRoomFix spawnRandFix).vel = vzero ∧
    vlength (steerRun [(vzero, 1, ⟨0, 0, 0, 0⟩)] chaseBact).vel ≤
      chaseBact.btype.speed := by
  constructor
  · refine c10_thm.1 spawnRoomFix 0 (fun _ => spawnRandFix)
      (spawnOne spawnRoomFix spawnRandFix) ?_
    simp only [spawnBacteriaInRoom]
    exact List.mem_map_of_mem _ (List.mem_range.2 (show (0 : ℕ) < _ by norm_num))
  · exact c10_thm.2 [(vzero, 1, ⟨0, 0, 0, 0⟩)] chaseBact rfl
      (by norm_num [chaseBact, streptococcusType])

/-! ## Claim C8: projectile advance and lifetime -/

/-- Every projectile in a pass advances by direction times speed times
deltaTime, independently of expiry and hits (removal happens later). -/
theorem projLoop_projectiles (now dt : ℚ) :
    ∀ (ps : List (Projectile ℚ)) (i : ℕ) (bs : List (Bacteria ℚ)),
      (projLoop now dt ps i bs).projectiles = ps.map (moveProjectile dt)
  | [], i, bs => by simp [projLoop]
  | p :: ps, i, bs => by
    by_cases h : 3000 < now - p.createdAt
    · simp [projLoop, h, projLoop_projectiles now dt ps (i + 1) bs]
    · simp [projLoop, h, projLoop_projectiles now dt ps (i + 1)
        ((scanBacteria (moveProjectile dt p).pos bs 0).1)]

/-- C8 counterexample: a projectile created at time 0 processed by a pass
at exactly 3000 milliseconds (T + 3.0 time-units) is not removed — the
expiry test is strictly greater-than — and it is still collidable: the
same pass at age exactly 3000 kills an adjacent entity.  This refutes
the claim that the projectile is guaranteed removed by T + 3.0. -/
theorem c8_counterexample :
    (updateProjectiles mountClosure 3000 0
        ⟨[projAt ⟨0, 0, 0⟩], [], initState 8⟩).projectiles = [projAt ⟨0, 0, 0⟩] ∧
    (updateProjectiles mountClosure 3000 0
        ⟨[projAt ⟨0, 0, 0⟩], [bactAt ecoliType 1 ⟨0, 0, 0⟩],
         initState 8⟩).state.killed = 1 := by
  constructor <;>
    norm_num [updateProjectiles, projLoop, scanBacteria, moveProjectile, scoreKills,
      killStep, completionThreshold, uniqueDesc, sortDesc, insertDesc, dedupIdx,
      spliceIdxsDesc, projAt, bactAt, ecoliType, initState, mountClosure,
      vadd, vsub, vsmul, vzero, dot, normSq, distSq, List.eraseIdx, min_def]

/-- C8 amended: each projectile advances by direction times 25 times
deltaTime per tick (shoot sets speed 25 and the pass moves by
direction times speed times deltaTime); an expired projectile (age
strictly greater than 3000 milliseconds) is flagged before collision
testing, damages nothing, and is gone after the pass; a projectile of
age at most 3000 milliseconds (so in particular at T + 2.9, and also
still at exactly T + 3.0) is collision-tested against the entities,
and survives the pass exactly when it registered no hit. -/
theorem c8_amended_thm :
    (∀ (now dt : ℚ) (ps : List (Projectile ℚ)) (i : ℕ) (bs : List (Bacteria ℚ)),
        (projLoop now dt ps i bs).projectiles = ps.map (moveProjectile dt)) ∧
    (∀ (cl : EffectClosure) (now dt : ℚ) (p : Projectile ℚ) (bs : List (Bacteria ℚ))
        (st : ScoreState), 3000 < now - p.createdAt →
        (updateProjectiles cl now dt ⟨[p], bs, st⟩).projectiles = [] ∧
        (updateProjectiles cl now dt ⟨[p], bs, st⟩).bacteria = bs ∧
        (updateProjectiles cl now dt ⟨[p], bs, st⟩).state = st) ∧
    (∀ (now dt : ℚ) (p : Projectile ℚ) (bs : List (Bacteria ℚ)),
        now - p.createdAt ≤ 3000 →
        (projLoop now dt [p] 0 bs).bacteria =
          (scanBacteria (moveProjectile dt p).pos bs 0).1) ∧
    (∀ (cl : EffectClosure) (now dt : ℚ) (p : Projectile ℚ) (bs : List (Bacteria ℚ))
        (st : ScoreState), now - p.createdAt ≤ 3000 →
        (scanBacteria (moveProjectile dt p).pos bs 0).2.1 = 0 →
        (updateProjectiles cl now dt ⟨[p], bs, st⟩).projectiles =
          [moveProjectile dt p]) := by
  refine ⟨projLoop_projectiles, ?_, ?_, ?_⟩
  · intro cl now dt p bs st h
    refine ⟨?_, ?_, ?_⟩ <;>
      simp [updateProjectiles, projLoop, h, uniqueDesc, sortDesc, insertDesc,
        dedupIdx, spliceIdxsDesc, scoreKills, List.eraseIdx]
  · intro now dt p bs h
    simp [projLoop, show ¬ 3000 < now - p.createdAt from not_lt.2 h]
  · intro cl now dt p bs st h hhit
    simp [updateProjectiles, projLoop, show ¬ 3000 < now - p.createdAt from not_lt.2 h,
      hhit, uniqueDesc, sortDesc, insertDesc, dedupIdx, spliceIdxsDesc]

/-- C8 witness: at age 3100 milliseconds the projectile is removed
without damaging the adjacent entity; at age 2900 (T + 2.9) it is
alive, collision-tested and survives a miss. -/
theorem c8_amended_witness :
    (updateProjectiles mountClosure 3100 0
        ⟨[projAt ⟨0, 0, 0⟩], [bactAt ecoliType 1 ⟨0, 0, 0⟩],
         initState 8⟩).projectiles = [] ∧
    (updateProjectiles mountClosure 3100 0
        ⟨[projAt ⟨0, 0, 0⟩], [bactAt ecoliType 1 ⟨0, 0, 0⟩],
         initState 8⟩).bacteria = [bactAt ecoliType 1 ⟨0, 0, 0⟩] ∧
    (updateProjectiles mountClosure 2900 0
        ⟨[projAt ⟨0, 0, 0⟩], [bactAt ecoliType 1 ⟨50, 0, 0⟩],
         initState 8⟩).projectiles = [moveProjectile 0 (projAt ⟨0, 0, 0⟩)] := by
  have h1 := c8_amended_thm.2.1 mountClosure 3100 0 (projAt ⟨0, 0, 0⟩)
    [bactAt ecoliType 1 ⟨0, 0, 0⟩] (initState 8) (by norm_num [projAt])
  have h2 := c8_amended_thm.2.2.2 mountClosure 2900 0 (projAt ⟨0, 0, 0⟩)
    [bactAt ecoliType 1 ⟨50, 0, 0⟩] (initState 8) (by norm_num [projAt])
    (by norm_num [scanBacteria, moveProjectile, projAt, bactAt, ecoliType,
      vadd, vsub, vsmul, vzero, dot, normSq, distSq])
  exact ⟨h1.1, h1.2.1, h2⟩

end BacteriaHunter
